import Mathlib

/-!
Shallow embedding of the HomeAutomationFrontend client (src/src/App.jsx).

The React component keeps its mutable context (useState hooks, useRef cells,
the toast log, the transport send log) in one explicit record `AppState`;
every handler of the source becomes a pure state-transforming function.
JavaScript values flowing through the message path are modelled by the
inductive `Json`; `JSON.parse` is modelled by the executable `jsonParse`
and `JSON.stringify` of the outbound payload by `stringifyCommandPayload`.
-/

namespace HomeAuto

/-- JSON values as produced by `JSON.parse`.  Numeric literals are kept as
their source lexeme: no claim inspects a numeric value, and this avoids
committing to a floating-point semantics. -/
inductive Json where
  | null
  | bool (b : Bool)
  | num (lexeme : String)
  | str (s : String)
  | arr (elems : List Json)
  | obj (fields : List (String × Json))
deriving Repr

/-! ### JavaScript string primitives used by the component -/

/-- Boolean prefix test on character lists (model of the character-level
comparison underlying the JS string methods used below). -/
def charsPrefix (pat s : List Char) : Bool :=
  match pat with
  | [] => true
  | x :: xs =>
    match s with
    | [] => false
    | y :: ys => if x = y then charsPrefix xs ys else false

/-- Helper of `jsIncludes`: does `pat` occur as a contiguous run in the list? -/
def charsIncludes (pat : List Char) : List Char → Bool
  | [] => charsPrefix pat []
  | c :: cs => charsPrefix pat (c :: cs) || charsIncludes pat cs

/-- Model of `String.prototype.startsWith`. -/
def jsStartsWith (s pre : String) : Bool := charsPrefix pre.data s.data

/-- Model of `String.prototype.endsWith`. -/
def jsEndsWith (s suf : String) : Bool := charsPrefix suf.data.reverse s.data.reverse

/-- Model of `String.prototype.includes` (substring occurrence). -/
def jsIncludes (s pat : String) : Bool := charsIncludes pat.data s.data

/-- Model of `String.prototype.toLowerCase` (ASCII-adequate, as in the
voice-command path where only ASCII transcripts occur). -/
def jsToLowerCase (s : String) : String := ⟨s.data.map Char.toLower⟩

/-! ### JSON.parse

A recursive-descent parser over the character list, with a fuel argument
making the recursion structural.  `jsonParse` fails (returns `none`)
exactly where `JSON.parse` would throw.
-/

/-- JSON whitespace. -/
def isJsonWs (c : Char) : Bool :=
  c == ' ' || c == '\t' || c == '\n' || c == '\r'

/-- Drop leading JSON whitespace. -/
def dropWs (cs : List Char) : List Char :=
  match cs with
  | [] => []
  | c :: rest => if isJsonWs c then dropWs rest else cs

/-- Value of one hexadecimal digit, if the character is one (the three
ranges are 0-9, lowercase a-f, uppercase A-F, via their code points). -/
def hexDigitValue (c : Char) : Option Nat :=
  let n := c.toNat
  if c.isDigit then
    some (n - 48)
  else if 97 ≤ n && n ≤ 102 then
    some (n - 87)
  else if 65 ≤ n && n ≤ 70 then
    some (n - 55)
  else
    none

/-- Read one `\uXXXX` escape that encodes a LOW surrogate (code unit in
DC00-DFFF), as it may follow a high one to form a pair.  Returns the code
unit and the remaining input. -/
def lowSurrogateEscape (cs : List Char) : Option (Nat × List Char) :=
  match cs with
  | '\\' :: 'u' :: h1 :: h2 :: h3 :: h4 :: rest =>
    match hexDigitValue h1, hexDigitValue h2, hexDigitValue h3, hexDigitValue h4 with
    | some a, some b, some c, some d =>
      let m := (a * 16 + b) * 256 + (c * 16 + d)
      if 56320 ≤ m && m ≤ 57343 then some (m, rest) else none
    | _, _, _, _ => none
  | _ => none

/-- Parse the body of a JSON string literal (the opening quote already
consumed), accumulating characters in reverse.

Acceptance agrees with `JSON.parse` everywhere: an unescaped control
character (code point below 0x20) is rejected, as are invalid and
truncated escapes; everything else is accepted.  On values the only model
slack is for an UNPAIRED surrogate escape (`\uD800`-`\uDFFF` not forming
a pair): `JSON.parse` yields a JS string holding that lone UTF-16 code
unit, which a Lean `Char` cannot carry, so the model represents it by
U+FFFD.  A well-formed pair of escapes decodes to the exact code point it
denotes, as in JS. -/
def parseStringBody : Nat → List Char → List Char → Option (String × List Char)
  | 0, _, _ => none
  | _ + 1, acc, '"' :: rest => some (⟨acc.reverse⟩, rest)
  | fuel + 1, acc, '\\' :: e :: rest =>
    match e with
    | '"' => parseStringBody fuel ('"' :: acc) rest
    | '\\' => parseStringBody fuel ('\\' :: acc) rest
    | '/' => parseStringBody fuel ('/' :: acc) rest
    | 'b' => parseStringBody fuel ('\x08' :: acc) rest
    | 'f' => parseStringBody fuel ('\x0c' :: acc) rest
    | 'n' => parseStringBody fuel ('\n' :: acc) rest
    | 'r' => parseStringBody fuel ('\r' :: acc) rest
    | 't' => parseStringBody fuel ('\t' :: acc) rest
    | 'u' =>
      match rest with
      | h1 :: h2 :: h3 :: h4 :: rest2 =>
        match hexDigitValue h1, hexDigitValue h2, hexDigitValue h3, hexDigitValue h4 with
        | some a, some b, some c, some d =>
          let n := (a * 16 + b) * 256 + (c * 16 + d)
          if n < 55296 || 57343 < n then
            parseStringBody fuel (Char.ofNat n :: acc) rest2
          else if n ≤ 56319 then
            match lowSurrogateEscape rest2 with
            | some (m, rest3) =>
              parseStringBody fuel
                (Char.ofNat (65536 + (n - 55296) * 1024 + (m - 56320)) :: acc) rest3
            | none => parseStringBody fuel (Char.ofNat 65533 :: acc) rest2
          else
            parseStringBody fuel (Char.ofNat 65533 :: acc) rest2
        | _, _, _, _ => none
      | _ => none
    | _ => none
  | fuel + 1, acc, c :: rest =>
    if c.toNat < 32 then none else parseStringBody fuel (c :: acc) rest
  | _ + 1, _, [] => none

/-- Digit run for numbers, accumulated in reverse. -/
def digitSpanRev (acc : List Char) (cs : List Char) : (List Char × List Char) :=
  match cs with
  | c :: rest => if c.isDigit then digitSpanRev (c :: acc) rest else (acc, cs)
  | [] => (acc, [])

/-- Parse a JSON number lexeme per the JSON grammar
(`-? (0 | [1-9][0-9]*) frac? exp?`), returning the lexeme verbatim. -/
def parseNumber (cs : List Char) : Option (String × List Char) :=
  let (neg, cs1) := match cs with
    | '-' :: rest => (['-'], rest)
    | _ => (([] : List Char), cs)
  match cs1 with
  | c :: rest =>
    if c == '0' then
      parseFracExp (neg ++ [c]) rest
    else if c.isDigit then
      let (ds, rest2) := digitSpanRev [c] rest
      parseFracExp (neg ++ ds.reverse) rest2
    else none
  | [] => none
where
  /-- Optional fraction and exponent parts. -/
  parseFracExp (intPart : List Char) (cs : List Char) : Option (String × List Char) :=
    let (withFrac, cs2) := match cs with
      | '.' :: d :: rest =>
        if d.isDigit then
          let (ds, rest2) := digitSpanRev [d] rest
          (some (intPart ++ '.' :: ds.reverse), rest2)
        else (none, cs)
      | _ => (some intPart, cs)
    match withFrac with
    | none => none
    | some mant =>
      match cs2 with
      | e :: rest =>
        if e == 'e' || e == 'E' then
          let (sign, rest2) := match rest with
            | '+' :: r => (['+'], r)
            | '-' :: r => (['-'], r)
            | _ => (([] : List Char), rest)
          match rest2 with
          | d :: r2 =>
            if d.isDigit then
              let (ds, r3) := digitSpanRev [d] r2
              some (⟨mant ++ e :: sign ++ ds.reverse⟩, r3)
            else none
          | [] => none
        else some (⟨mant⟩, cs2)
      | [] => some (⟨mant⟩, cs2)

mutual

/-- Parse one JSON value (leading whitespace allowed). -/
def parseValue : Nat → List Char → Option (Json × List Char)
  | 0, _ => none
  | fuel + 1, cs =>
    match dropWs cs with
    | '"' :: rest =>
      match parseStringBody (rest.length + 1) [] rest with
      | some (s, rest2) => some (Json.str s, rest2)
      | none => none
    | '\x7b' :: rest => parseObjectFields fuel [] rest
    | '[' :: rest => parseArrayElems fuel [] rest
    | 't' :: 'r' :: 'u' :: 'e' :: rest => some (Json.bool true, rest)
    | 'f' :: 'a' :: 'l' :: 's' :: 'e' :: rest => some (Json.bool false, rest)
    | 'n' :: 'u' :: 'l' :: 'l' :: rest => some (Json.null, rest)
    | c :: rest =>
      if c == '-' || c.isDigit then
        match parseNumber (c :: rest) with
        | some (lex, rest2) => some (Json.num lex, rest2)
        | none => none
      else none
    | [] => none

/-- Parse the members of an object, the opening brace already consumed.
`acc` holds the members read so far, in order. -/
def parseObjectFields : Nat → List (String × Json) → List Char → Option (Json × List Char)
  | 0, _, _ => none
  | fuel + 1, acc, cs =>
    match dropWs cs with
    | '\x7d' :: rest =>
      if acc.isEmpty then some (Json.obj [], rest) else none
    | '"' :: rest =>
      match parseStringBody (rest.length + 1) [] rest with
      | some (key, rest2) =>
        match dropWs rest2 with
        | ':' :: rest3 =>
          match parseValue fuel rest3 with
          | some (v, rest4) =>
            match dropWs rest4 with
            | ',' :: rest5 => parseObjectFields fuel (acc ++ [(key, v)]) rest5
            | '\x7d' :: rest5 => some (Json.obj (acc ++ [(key, v)]), rest5)
            | _ => none
          | none => none
        | _ => none
      | none => none
    | _ => none

/-- Parse the elements of an array, the opening bracket already consumed. -/
def parseArrayElems : Nat → List Json → List Char → Option (Json × List Char)
  | 0, _, _ => none
  | fuel + 1, acc, cs =>
    match dropWs cs with
    | ']' :: rest =>
      if acc.isEmpty then some (Json.arr [], rest) else none
    | _ =>
      match parseValue fuel cs with
      | some (v, rest) =>
        match dropWs rest with
        | ',' :: rest2 => parseArrayElems fuel (acc ++ [v]) rest2
        | ']' :: rest2 => some (Json.arr (acc ++ [v]), rest2)
        | _ => none
      | none => none

end

/-- Model of `JSON.parse`: parse a whole text as one JSON value; any
leftover non-whitespace input is an error. -/
def jsonParse (s : String) : Option Json :=
  match parseValue (2 * s.data.length + 2) s.data with
  | some (j, rest) => if (dropWs rest).isEmpty then some j else none
  | none => none

/-! ### JavaScript value semantics used by the handlers -/

/-- Property lookup `data.command`: on an object, the member access (later
duplicate keys win, as in `JSON.parse`); on anything else the result is
`undefined`, modelled as `none`. -/
def jsonGetField (j : Json) (key : String) : Option Json :=
  match j with
  | Json.obj fields => ((fields.filter (fun p => p.1 == key)).getLast?).map (fun p => p.2)
  | _ => none

/-- Does the mantissa of a number lexeme consist only of zeros (sign,
decimal point and exponent ignored)?  Such a literal denotes 0. -/
def numLexemeIsZero (lex : String) : Bool :=
  (lex.data.takeWhile (fun c => c != 'e' && c != 'E')).all
    (fun c => !c.isDigit || c == '0')

/-- JavaScript truthiness of a parsed JSON value (`if (data.command)`). -/
def jsTruthy : Json → Bool
  | Json.null => false
  | Json.bool b => b
  | Json.num lex => !numLexemeIsZero lex
  | Json.str s => s != ""
  | Json.arr _ => true
  | Json.obj _ => true

/-- JavaScript strict equality `===` between a previously stored status
value and a freshly parsed one.  Primitives compare by value; objects and
arrays compare by reference, and the two operands here always come from
distinct parses, hence are distinct references. -/
def jsStrictEq : Json → Json → Bool
  | Json.null, Json.null => true
  | Json.bool a, Json.bool b => a == b
  | Json.num a, Json.num b => a == b
  | Json.str a, Json.str b => a == b
  | _, _ => false

mutual

/-- JavaScript string conversion of a value, as used by the template
literal interpolation in the device-status toast. -/
def jsToString : Json → String
  | Json.null => "null"
  | Json.bool b => if b then "true" else "false"
  | Json.num lex => lex
  | Json.str s => s
  | Json.arr xs => jsToStringList xs
  | Json.obj _ => "[object Object]"

/-- Model of `Array.prototype.toString`: elements joined with commas. -/
def jsToStringList : List Json → String
  | [] => ""
  | [x] => jsToString x
  | x :: y :: xs => jsToString x ++ "," ++ jsToStringList (y :: xs)

end

/-- One character of `JSON.stringify` string escaping. -/
def jsonEscapeChar (c : Char) : String :=
  if c == '"' then "\\\""
  else if c == '\\' then "\\\\"
  else if c == '\n' then "\\n"
  else if c == '\r' then "\\r"
  else if c == '\t' then "\\t"
  else if c == '\x08' then "\\b"
  else if c == '\x0c' then "\\f"
  else String.singleton c

/-- Model of `JSON.stringify` applied to a string value. -/
def jsonStringifyString (s : String) : String :=
  "\"" ++ String.join (s.data.map jsonEscapeChar) ++ "\""

/-- The outbound payload `JSON.stringify(\x7b command \x7d)` of
`toggleAppliance`. -/
def stringifyCommandPayload (command : String) : String :=
  "\x7b\"command\":" ++ jsonStringifyString command ++ "\x7d"

/-! ### Component state

One record gathers the React hooks (`useState`, `useRef`) together with the
observable histories of the external collaborators: the toasts actually
displayed, every call made to `showToast`, the payloads passed to
`socket.send`, and the ids of the `WebSocket` objects constructed.
-/

/-- Toast severity (the `react-toastify` method picked by `toast[type]`). -/
inductive Severity where
  | success
  | info
  | warning
  | error
deriving Repr, DecidableEq

/-- One toast: message text plus severity. -/
structure Toast where
  message : String
  severity : Severity
deriving Repr

/-- The `readyState` of a browser `WebSocket` object. -/
inductive ReadyState where
  | CONNECTING
  | OPEN
  | CLOSING
  | CLOSED
deriving Repr, DecidableEq

/-- A `WebSocket` object: an identity (so distinct constructions are
distinguishable) and its transport-maintained `readyState`. -/
structure WSHandle where
  id : Nat
  readyState : ReadyState
deriving Repr, DecidableEq

/-- The component context of `App`.  The first six fields are the
`useState`/`useRef` cells of the source; the remaining fields record the
interactions with the environment (instrumentation, written only ever by
appending) plus the bookkeeping needed to model `new WebSocket(...)` and
`setTimeout(connectWebSocket, 3000)`. -/
structure AppState where
  status : Json
  error : Option String
  listening : Bool
  transcript : String
  ws : Option WSHandle
  lastToast : String
  nextId : Nat
  pendingReconnects : Nat
  created : List Nat
  toasts : List Toast
  notifyCalls : List Toast
  sent : List String
deriving Repr

/-- The state right after the initial render: `useState("OFF")`,
`useState(null)`, `useState(false)`, `useState("")`, `useRef(null)`,
`useRef("")`; no socket constructed, no timer pending, nothing displayed,
nothing sent. -/
def initialState : AppState :=
  { status := Json.str "OFF"
    error := none
    listening := false
    transcript := ""
    ws := none
    lastToast := ""
    nextId := 0
    pendingReconnects := 0
    created := []
    toasts := []
    notifyCalls := []
    sent := [] }

/-- The static suggested-commands list (`useState` with no setter used). -/
def suggestedCommands : List String := ["Turn on", "Turn off"]

/-! ### The handlers of App.jsx as pure state transformers -/

/-- Model of `showToast`: record the call, then display only if the
message differs from the one in `lastToastRef`. -/
def showToast (message : String) (severity : Severity) (st : AppState) : AppState :=
  let st := { st with notifyCalls := st.notifyCalls ++ [⟨message, severity⟩] }
  if st.lastToast != message then
    { st with lastToast := message, toasts := st.toasts ++ [⟨message, severity⟩] }
  else st

/-- The test `wsRef.current && wsRef.current.readyState === WebSocket.OPEN`. -/
def wsIsOpen (st : AppState) : Bool :=
  match st.ws with
  | some h => h.readyState == ReadyState.OPEN
  | none => false

/-- Model of `toggleAppliance(command)`. -/
def toggleAppliance (command : String) (st : AppState) : AppState :=
  if wsIsOpen st then
    let st1 := { st with sent := st.sent ++ [stringifyCommandPayload command] }
    let st2 := showToast ("📢 Command Sent: " ++ command) Severity.success st1
    { st2 with error := none }
  else
    let st1 := { st with error := some "❌ WebSocket not connected!" }
    showToast "❌ WebSocket not connected!" Severity.error st1

/-- The body of the `setStatus` updater together with the guard
`if (data.command)` of `socket.onmessage`: look up `data.command`; when it
is truthy, toast on an actual change (`prevStatus !== data.command`) and
store the new value; otherwise do nothing. -/
def applyCommandField (data : Json) (st : AppState) : AppState :=
  match jsonGetField data "command" with
  | some cmd =>
    if jsTruthy cmd then
      if !jsStrictEq st.status cmd then
        let st1 := showToast ("💡 Device is now " ++ jsToString cmd) Severity.info st
        { st1 with status := cmd }
      else
        { st with status := cmd }
    else st
  | none => st

/-- Model of `socket.onmessage`: sniff the raw text for a bracketed
structure; if bracketed, `JSON.parse` it (a parse failure lands in the
`catch` block, which toasts a parse error); otherwise wrap the raw text as
`\x7b command: event.data \x7d`; then run the command-field logic. -/
def socketOnmessage (raw : String) (st : AppState) : AppState :=
  if jsStartsWith raw "\x7b" && jsEndsWith raw "\x7d" then
    match jsonParse raw with
    | some data => applyCommandField data st
    | none => showToast "❌ Error parsing WebSocket message!" Severity.error st
  else
    applyCommandField (Json.obj [("command", Json.str raw)]) st

/-- Model of the body of `connectWebSocket`: construct a fresh
`WebSocket` (a new identity, in `readyState` CONNECTING) and store it in
`wsRef.current`, unconditionally. -/
def connectWebSocket (st : AppState) : AppState :=
  { st with
      ws := some { id := st.nextId, readyState := ReadyState.CONNECTING }
      nextId := st.nextId + 1
      created := st.created ++ [st.nextId] }

/-- Model of the `useEffect` body: `if (wsRef.current) return;` then
`connectWebSocket()`. -/
def effectStart (st : AppState) : AppState :=
  match st.ws with
  | some _ => st
  | none => connectWebSocket st

/-- Model of `socket.onopen` (the transport has moved the socket to
readyState OPEN by the time the handler runs): toast success, clear the
error. -/
def socketOnopen (st : AppState) : AppState :=
  let st1 := { st with ws := st.ws.map (fun h => { h with readyState := ReadyState.OPEN }) }
  let st2 := showToast "✅ Connected to WebSocket Server" Severity.success st1
  { st2 with error := none }

/-- Model of `socket.onerror`: record the error text, toast. -/
def socketOnerror (st : AppState) : AppState :=
  let st1 := { st with error := some "❌ Connection failed!" }
  showToast "⚠️ WebSocket Error! Retrying..." Severity.error st1

/-- Model of `socket.onclose`: record the error text, toast, clear
`wsRef.current`, and schedule one `connectWebSocket` via
`setTimeout(connectWebSocket, 3000)`. -/
def socketOnclose (st : AppState) : AppState :=
  let st1 := { st with error := some "⚠️ WebSocket disconnected. Reconnecting..." }
  let st2 := showToast "🔄 Reconnecting to WebSocket..." Severity.warning st1
  { st2 with ws := none, pendingReconnects := st2.pendingReconnects + 1 }

/-- A scheduled reconnect timer fires: the callback passed to `setTimeout`
is `connectWebSocket` itself, run with no further guard. -/
def reconnectTimerFires (st : AppState) : AppState :=
  connectWebSocket { st with pendingReconnects := st.pendingReconnects - 1 }

/-- Model of the `useEffect` cleanup (explicit teardown): close the owned
socket, if any, and null the ref.  Note: no pending reconnect timer is
cancelled here. -/
def effectCleanup (st : AppState) : AppState :=
  match st.ws with
  | some _ => { st with ws := none }
  | none => st

/-- Model of `startListening` when `webkitSpeechRecognition` is absent
from `window`: toast unsupported and return.  When it is present the
source constructs a recognition session whose events are modelled by the
`recognitionOn*` functions below. -/
def startListeningUnsupported (st : AppState) : AppState :=
  showToast "❌ Your browser does not support voice recognition." Severity.error st

/-- Model of `recognition.onstart`. -/
def recognitionOnstart (st : AppState) : AppState :=
  let st1 := { st with listening := true, transcript := "Listening..." }
  showToast "🎤 Listening for voice command..." Severity.info st1

/-- Model of `recognition.onresult`: lower-case the recognized transcript,
store and toast it, then match intents by substring and either dispatch
through `toggleAppliance` or toast an unknown-command warning. -/
def recognitionOnresult (resultTranscript : String) (st : AppState) : AppState :=
  let spokenText := jsToLowerCase resultTranscript
  let st1 := { st with transcript := spokenText }
  let st2 := showToast ("🗣 Recognized: \"" ++ spokenText ++ "\"") Severity.info st1
  if jsIncludes spokenText "turn on" then
    toggleAppliance "ON" st2
  else if jsIncludes spokenText "turn off" then
    toggleAppliance "OFF" st2
  else
    showToast ("⚠️ Unknown command: \"" ++ spokenText ++ "\"") Severity.warning st2

/-- Model of `recognition.onerror`. -/
def recognitionOnerror (st : AppState) : AppState :=
  let st1 := { st with listening := false, transcript := "Error recognizing voice." }
  showToast "❌ Voice recognition error!" Severity.error st1

/-- Model of `recognition.onend`. -/
def recognitionOnend (st : AppState) : AppState :=
  let st1 := { st with listening := false }
  showToast "🎤 Stopped listening." Severity.info st1

/-! ### Helper lemmas -/

/-- Projection lemma: `showToast` never touches the device status. -/
@[simp] theorem showToast_status (m : String) (sev : Severity) (st : AppState) :
    (showToast m sev st).status = st.status := by
  simp only [showToast]
  split <;> rfl

/-- Projection lemma: `showToast` never touches the recorded error. -/
@[simp] theorem showToast_error (m : String) (sev : Severity) (st : AppState) :
    (showToast m sev st).error = st.error := by
  simp only [showToast]
  split <;> rfl

/-- Projection lemma: `showToast` never touches the socket ref. -/
@[simp] theorem showToast_ws (m : String) (sev : Severity) (st : AppState) :
    (showToast m sev st).ws = st.ws := by
  simp only [showToast]
  split <;> rfl

/-- Projection lemma: `showToast` never touches the transport send log. -/
@[simp] theorem showToast_sent (m : String) (sev : Severity) (st : AppState) :
    (showToast m sev st).sent = st.sent := by
  simp only [showToast]
  split <;> rfl

/-- Every `showToast` call is recorded, displayed or not. -/
@[simp] theorem showToast_notifyCalls (m : String) (sev : Severity) (st : AppState) :
    (showToast m sev st).notifyCalls = st.notifyCalls ++ [⟨m, sev⟩] := by
  simp only [showToast]
  split <;> rfl

/-- Boolean strict equality implies equality of the modelled values. -/
theorem jsStrictEq_eq {a b : Json} (h : jsStrictEq a b = true) : a = b := by
  cases a <;> cases b <;> simp_all [jsStrictEq]

/-- A list is a Boolean prefix of itself followed by anything. -/
theorem charsPrefix_self_append (l r : List Char) : charsPrefix l (l ++ r) = true := by
  induction l with
  | nil => rfl
  | cons a as ih => simp [charsPrefix, ih]

/-- A Boolean prefix is in particular a Boolean infix. -/
theorem charsIncludes_of_prefix {pat l : List Char} (h : charsPrefix pat l = true) :
    charsIncludes pat l = true := by
  cases l with
  | nil => simpa [charsIncludes] using h
  | cons c cs => simp [charsIncludes, h]

/-- A contiguous run bracketed by arbitrary context is found by
`charsIncludes`. -/
theorem charsIncludes_append (pre t post : List Char) :
    charsIncludes t (pre ++ (t ++ post)) = true := by
  induction pre with
  | nil => exact charsIncludes_of_prefix (charsPrefix_self_append t post)
  | cons c cs ih => simp [charsIncludes, ih]

/-- String-level corollary: a substring surrounded by fixed text is found
by `jsIncludes`. -/
theorem jsIncludes_surround (pre t post : String) :
    jsIncludes (pre ++ t ++ post) t = true := by
  unfold jsIncludes
  rw [String.data_append, String.data_append, List.append_assoc]
  exact charsIncludes_append pre.data t.data post.data

/-- Unfolding of `applyCommandField` when the command field is absent. -/
theorem applyCommandField_absent {data : Json} (st : AppState)
    (h : jsonGetField data "command" = none) :
    applyCommandField data st = st := by
  unfold applyCommandField
  rw [h]

/-- Unfolding of `applyCommandField` when the command field is falsy. -/
theorem applyCommandField_falsy {data cmd : Json} (st : AppState)
    (h : jsonGetField data "command" = some cmd) (hf : jsTruthy cmd = false) :
    applyCommandField data st = st := by
  unfold applyCommandField
  rw [h]
  simp [hf]

/-- Unfolding of `applyCommandField` when the command equals the current
status: the state is rewritten to the value it already holds. -/
theorem applyCommandField_same {data cmd : Json} (st : AppState)
    (h : jsonGetField data "command" = some cmd) (ht : jsTruthy cmd = true)
    (he : jsStrictEq st.status cmd = true) :
    applyCommandField data st = st := by
  have hs : st.status = cmd := jsStrictEq_eq he
  unfold applyCommandField
  rw [h]
  simp only [ht, he, Bool.not_true, if_true]
  rw [if_neg (by simp), ← hs]

/-- Unfolding of `applyCommandField` on an actual transition: toast the
new value, then store it. -/
theorem applyCommandField_change {data cmd : Json} (st : AppState)
    (h : jsonGetField data "command" = some cmd) (ht : jsTruthy cmd = true)
    (hne : jsStrictEq st.status cmd = false) :
    applyCommandField data st
      = { showToast ("💡 Device is now " ++ jsToString cmd) Severity.info st
            with status := cmd } := by
  unfold applyCommandField
  rw [h]
  simp only [ht, hne, Bool.not_false, if_true]

/-! ### The claims -/

/-- C1: every `start()` (the guarded `useEffect` entry) issued while a
connection handle is currently owned — in particular while its phase is
CONNECTING or OPEN — is a no-op, so the single owned-handle slot is never
overwritten and at most one live handle is owned at any instant. -/
theorem start_noop_while_handle_owned (st : AppState) (h : WSHandle)
    (hws : st.ws = some h)
    (hphase : h.readyState = ReadyState.CONNECTING ∨ h.readyState = ReadyState.OPEN) :
    effectStart st = st := by
  unfold effectStart
  rw [hws]

/-- Witness for C1 at a concrete state: right after the first connect the
handle is owned and CONNECTING, and a second `start()` changes nothing. -/
theorem start_noop_while_handle_owned_witness :
    effectStart (connectWebSocket initialState) = connectWebSocket initialState :=
  start_noop_while_handle_owned (connectWebSocket initialState)
    { id := 0, readyState := ReadyState.CONNECTING } rfl (Or.inl rfl)

/-- C2: `toggleAppliance(command)` — while the socket is OPEN it transmits
the serialized payload, emits the command-sent notification with severity
success, clears the recorded error, and leaves the device state alone;
while not OPEN it calls no send, emits the not-connected notification with
severity error, records an error state, and the command is dropped (the
send log is unchanged and no part of the state retains the command). -/
theorem toggleAppliance_spec (st : AppState) (command : String) :
    (wsIsOpen st = true →
        (toggleAppliance command st).sent = st.sent ++ [stringifyCommandPayload command]
      ∧ (toggleAppliance command st).notifyCalls
          = st.notifyCalls ++ [⟨"📢 Command Sent: " ++ command, Severity.success⟩]
      ∧ (toggleAppliance command st).error = none
      ∧ (toggleAppliance command st).status = st.status)
  ∧ (wsIsOpen st = false →
        (toggleAppliance command st).sent = st.sent
      ∧ (toggleAppliance command st).notifyCalls
          = st.notifyCalls ++ [⟨"❌ WebSocket not connected!", Severity.error⟩]
      ∧ (toggleAppliance command st).error = some "❌ WebSocket not connected!"
      ∧ (toggleAppliance command st).status = st.status) := by
  constructor <;> intro hopen <;>
    simp [toggleAppliance, hopen, showToast_sent, showToast_notifyCalls,
      showToast_error, showToast_status]

/-- Witness for C2: with the freshly opened socket, dispatching ON sends
exactly the serialized payload; from the initial (not yet connected)
state, dispatching OFF sends nothing. -/
theorem toggleAppliance_spec_witness :
    (wsIsOpen (socketOnopen (effectStart initialState)) = true
      ∧ (toggleAppliance "ON" (socketOnopen (effectStart initialState))).sent
          = (socketOnopen (effectStart initialState)).sent ++ [stringifyCommandPayload "ON"]
      ∧ stringifyCommandPayload "ON" = "\x7b\"command\":\"ON\"\x7d")
  ∧ (wsIsOpen initialState = false
      ∧ (toggleAppliance "OFF" initialState).sent = initialState.sent) :=
  ⟨⟨rfl, (toggleAppliance_spec (socketOnopen (effectStart initialState)) "ON").1 rfl |>.1, rfl⟩,
   rfl, ((toggleAppliance_spec initialState "OFF").2 rfl).1⟩

/-- C3 as stated is refuted: an envelope whose `command` field is present
but holds the empty string — a value different from the current
DeviceState — is silently ignored (the source guards on JS truthiness and
the empty string is falsy), instead of updating the state and notifying. -/
theorem applyCommandField_empty_counterexample :
    jsonGetField (Json.obj [("command", Json.str "")]) "command" = some (Json.str "")
    ∧ applyCommandField (Json.obj [("command", Json.str "")]) initialState = initialState
    ∧ initialState.status = Json.str "OFF"
    ∧ ("OFF" : String) ≠ "" :=
  ⟨rfl, rfl, rfl, by decide⟩

/-- C3 amended: `apply(envelope)` — if the command field is absent or
falsy (notably the empty string), no-op; if truthy and strictly equal to
the current DeviceState, no-op with no notification; if truthy and
different, the DeviceState is updated to the new value and exactly one
device-state-changed notification with severity info carrying the new
value is emitted. -/
theorem applyCommandField_spec (data : Json) (st : AppState) :
    (jsonGetField data "command" = none → applyCommandField data st = st)
  ∧ (∀ cmd, jsonGetField data "command" = some cmd → jsTruthy cmd = false →
        applyCommandField data st = st)
  ∧ (∀ cmd, jsonGetField data "command" = some cmd → jsTruthy cmd = true →
        jsStrictEq st.status cmd = true → applyCommandField data st = st)
  ∧ (∀ cmd, jsonGetField data "command" = some cmd → jsTruthy cmd = true →
        jsStrictEq st.status cmd = false →
          (applyCommandField data st).status = cmd
        ∧ (applyCommandField data st).notifyCalls
            = st.notifyCalls ++ [⟨"💡 Device is now " ++ jsToString cmd, Severity.info⟩]
        ∧ (applyCommandField data st).sent = st.sent) := by
  refine ⟨fun h => applyCommandField_absent st h,
          fun cmd h hf => applyCommandField_falsy st h hf,
          fun cmd h ht he => applyCommandField_same st h ht he,
          fun cmd h ht hne => ?_⟩
  rw [applyCommandField_change st h ht hne]
  refine ⟨rfl, ?_, ?_⟩ <;> simp [showToast_notifyCalls, showToast_sent]

/-- Witness for C3 at concrete envelopes over the initial state: an
absent command, a falsy command, a command equal to the current state, and
a real transition to ON. -/
theorem applyCommandField_spec_witness :
    applyCommandField (Json.obj []) initialState = initialState
    ∧ applyCommandField (Json.obj [("command", Json.str "")]) initialState = initialState
    ∧ applyCommandField (Json.obj [("command", Json.str "OFF")]) initialState = initialState
    ∧ (applyCommandField (Json.obj [("command", Json.str "ON")]) initialState).status
        = Json.str "ON"
    ∧ (applyCommandField (Json.obj [("command", Json.str "ON")]) initialState).notifyCalls
        = [⟨"💡 Device is now ON", Severity.info⟩] :=
  ⟨(applyCommandField_spec (Json.obj []) initialState).1 rfl,
   (applyCommandField_spec (Json.obj [("command", Json.str "")]) initialState).2.1
     (Json.str "") rfl rfl,
   (applyCommandField_spec (Json.obj [("command", Json.str "OFF")]) initialState).2.2.1
     (Json.str "OFF") rfl rfl rfl,
   ((applyCommandField_spec (Json.obj [("command", Json.str "ON")]) initialState).2.2.2
     (Json.str "ON") rfl rfl rfl).1,
   ((applyCommandField_spec (Json.obj [("command", Json.str "ON")]) initialState).2.2.2
     (Json.str "ON") rfl rfl rfl).2.1⟩

/-- C4: `showToast` — a call whose message equals the stored last message
is fully suppressed (no display, slot unchanged); any other call stores
the message and forwards exactly one display. -/
theorem showToast_dedup (st : AppState) (msg : String) (sev : Severity) :
    (st.lastToast = msg →
        (showToast msg sev st).toasts = st.toasts
      ∧ (showToast msg sev st).lastToast = st.lastToast)
  ∧ (st.lastToast ≠ msg →
        (showToast msg sev st).toasts = st.toasts ++ [⟨msg, sev⟩]
      ∧ (showToast msg sev st).lastToast = msg) := by
  constructor <;> intro h <;> simp [showToast, h]

/-- Witness for C4: notifying X twice in a row from the fresh state
displays once; notifying X, then Y, then X displays three times. -/
theorem showToast_dedup_witness :
    (showToast "X" Severity.info (showToast "X" Severity.info initialState)).toasts
      = (showToast "X" Severity.info initialState).toasts
    ∧ (showToast "X" Severity.info (showToast "X" Severity.info initialState)).toasts.length = 1
    ∧ (showToast "X" Severity.info (showToast "Y" Severity.info
        (showToast "X" Severity.info initialState))).toasts.length = 3 :=
  ⟨((showToast_dedup (showToast "X" Severity.info initialState) "X" Severity.info).1 rfl).1,
   rfl, rfl⟩

/-- C5 as stated is refuted: the raw frame consisting of an opening brace
and an `x` starts with a brace and is not valid JSON, yet the handler does
not emit a ParseError — it treats the whole text as a command, emits the
device-changed info notification, and mutates the DeviceState. -/
theorem onmessage_malformed_counterexample :
    jsStartsWith "\x7bx" "\x7b" = true
    ∧ jsonParse "\x7bx" = none
    ∧ (socketOnmessage "\x7bx" initialState).status = Json.str "\x7bx"
    ∧ initialState.status = Json.str "OFF"
    ∧ (socketOnmessage "\x7bx" initialState).notifyCalls
        = [⟨"💡 Device is now \x7bx", Severity.info⟩] :=
  ⟨rfl, rfl, rfl, rfl, rfl⟩

/-- C5 amended: an inbound raw frame that starts with an opening brace AND
ends with a closing brace but is not valid JSON produces exactly the
ParseError notification with severity error and leaves the DeviceState
unchanged; a frame that starts with a brace without ending in one is
instead treated as an unstructured command. -/
theorem onmessage_malformed_bracketed_spec (raw : String) (st : AppState)
    (hpre : jsStartsWith raw "\x7b" = true) (hsuf : jsEndsWith raw "\x7d" = true)
    (hfail : jsonParse raw = none) :
    socketOnmessage raw st
      = showToast "❌ Error parsing WebSocket message!" Severity.error st
    ∧ (socketOnmessage raw st).status = st.status := by
  have hm : socketOnmessage raw st
      = showToast "❌ Error parsing WebSocket message!" Severity.error st := by
    unfold socketOnmessage
    rw [hpre, hsuf, hfail]
    rfl
  exact ⟨hm, by rw [hm, showToast_status]⟩

/-- Witness for C5 at the concrete frame enclosing an `x` in braces: it is
bracketed, fails to parse, toasts the parse error and leaves the state. -/
theorem onmessage_malformed_bracketed_spec_witness :
    jsonParse "\x7bx\x7d" = none
    ∧ socketOnmessage "\x7bx\x7d" initialState
        = showToast "❌ Error parsing WebSocket message!" Severity.error initialState
    ∧ (socketOnmessage "\x7bx\x7d" initialState).status = initialState.status :=
  ⟨rfl,
   (onmessage_malformed_bracketed_spec "\x7bx\x7d" initialState rfl rfl rfl).1,
   (onmessage_malformed_bracketed_spec "\x7bx\x7d" initialState rfl rfl rfl).2⟩

/-- C6: the voice-result handler lower-cases the transcript and matches by
substring: a transcript containing the words turn on dispatches ON through
`toggleAppliance`; otherwise one containing turn off dispatches OFF;
otherwise it emits a warning notification containing the verbatim
(lower-cased) transcript and never invokes the dispatcher (in particular
the transport send log is untouched). -/
theorem recognitionOnresult_spec (resultTranscript : String) (st : AppState) :
    (jsIncludes (jsToLowerCase resultTranscript) "turn on" = true →
        recognitionOnresult resultTranscript st
          = toggleAppliance "ON"
              (showToast ("🗣 Recognized: \"" ++ jsToLowerCase resultTranscript ++ "\"")
                Severity.info { st with transcript := jsToLowerCase resultTranscript }))
  ∧ (jsIncludes (jsToLowerCase resultTranscript) "turn on" = false →
      jsIncludes (jsToLowerCase resultTranscript) "turn off" = true →
        recognitionOnresult resultTranscript st
          = toggleAppliance "OFF"
              (showToast ("🗣 Recognized: \"" ++ jsToLowerCase resultTranscript ++ "\"")
                Severity.info { st with transcript := jsToLowerCase resultTranscript }))
  ∧ (jsIncludes (jsToLowerCase resultTranscript) "turn on" = false →
      jsIncludes (jsToLowerCase resultTranscript) "turn off" = false →
        recognitionOnresult resultTranscript st
          = showToast ("⚠️ Unknown command: \"" ++ jsToLowerCase resultTranscript ++ "\"")
              Severity.warning
              (showToast ("🗣 Recognized: \"" ++ jsToLowerCase resultTranscript ++ "\"")
                Severity.info { st with transcript := jsToLowerCase resultTranscript })
      ∧ (recognitionOnresult resultTranscript st).sent = st.sent
      ∧ jsIncludes ("⚠️ Unknown command: \"" ++ jsToLowerCase resultTranscript ++ "\"")
          (jsToLowerCase resultTranscript) = true) := by
  refine ⟨fun hOn => ?_, fun hOn hOff => ?_, fun hOn hOff => ?_⟩
  · simp only [recognitionOnresult]
    rw [hOn]
    rfl
  · simp only [recognitionOnresult]
    rw [hOn, hOff]
    rfl
  · have hm : recognitionOnresult resultTranscript st
        = showToast ("⚠️ Unknown command: \"" ++ jsToLowerCase resultTranscript ++ "\"")
            Severity.warning
            (showToast ("🗣 Recognized: \"" ++ jsToLowerCase resultTranscript ++ "\"")
              Severity.info { st with transcript := jsToLowerCase resultTranscript }) := by
      simp only [recognitionOnresult]
      rw [hOn, hOff]
      rfl
    refine ⟨hm, ?_, ?_⟩
    · rw [hm, showToast_sent, showToast_sent]
    · have h := jsIncludes_surround "⚠️ Unknown command: \""
        (jsToLowerCase resultTranscript) "\""
      simpa using h

/-- Witness for C6 at the three transcripts of the spec: please turn on
the light dispatches ON, TURN OFF (case-insensitively) dispatches OFF, and
do a barrel roll only warns, sending nothing. -/
theorem recognitionOnresult_spec_witness :
    recognitionOnresult "please turn on the light" initialState
      = toggleAppliance "ON"
          (showToast ("🗣 Recognized: \"" ++ jsToLowerCase "please turn on the light" ++ "\"")
            Severity.info
            { initialState with transcript := jsToLowerCase "please turn on the light" })
    ∧ recognitionOnresult "TURN OFF" initialState
      = toggleAppliance "OFF"
          (showToast ("🗣 Recognized: \"" ++ jsToLowerCase "TURN OFF" ++ "\"")
            Severity.info { initialState with transcript := jsToLowerCase "TURN OFF" })
    ∧ (recognitionOnresult "do a barrel roll" initialState).sent = initialState.sent :=
  ⟨(recognitionOnresult_spec "please turn on the light" initialState).1 rfl,
   (recognitionOnresult_spec "TURN OFF" initialState).2.1 rfl rfl,
   ((recognitionOnresult_spec "do a barrel roll" initialState).2.2 rfl rfl).2.1⟩

/-- C7 as stated is refuted: the initial DeviceState is the string OFF —
one of the real reported states — not a distinct UNKNOWN value. -/
theorem initial_status_counterexample :
    initialState.status = Json.str "OFF" ∧ ("OFF" : String) ≠ "UNKNOWN" :=
  ⟨rfl, by decide⟩

/-- C7 amended: the initial value of DeviceState, before any inbound
message has been applied, is OFF, which coincides with a real reported
state (there is no distinct UNKNOWN initial value). -/
theorem initial_status_is_OFF :
    initialState.status = Json.str "OFF"
    ∧ (("OFF" : String) = "ON" ∨ ("OFF" : String) = "OFF") :=
  ⟨rfl, Or.inr rfl⟩

/-- C8 as stated is refuted: after a close schedules a reconnect and an
explicit teardown then runs, the uncancelled timer still fires
`connectWebSocket`, which checks nothing and constructs and takes
ownership of a brand-new handle (socket id 1, after id 0). -/
theorem reconnect_after_teardown_counterexample :
    (effectCleanup (socketOnclose (socketOnopen (effectStart initialState)))).ws = none
    ∧ (effectCleanup (socketOnclose (socketOnopen (effectStart initialState)))).pendingReconnects = 1
    ∧ (reconnectTimerFires
        (effectCleanup (socketOnclose (socketOnopen (effectStart initialState))))).ws
        = some { id := 1, readyState := ReadyState.CONNECTING }
    ∧ (reconnectTimerFires
        (effectCleanup (socketOnclose (socketOnopen (effectStart initialState))))).created
        = [0, 1] :=
  ⟨rfl, rfl, rfl, rfl⟩

/-- C8 amended: a fired reconnect performs no ownership check at all: from
every state — owned or torn down — the timer callback runs
`connectWebSocket` unconditionally, creating a fresh handle and storing it
in the ref. -/
theorem reconnectTimerFires_unconditional (st : AppState) :
    (reconnectTimerFires st).ws
        = some { id := st.nextId, readyState := ReadyState.CONNECTING }
    ∧ (reconnectTimerFires st).created = st.created ++ [st.nextId] :=
  ⟨rfl, rfl⟩

/-- C9 as stated is refuted: the structured frame whose command field is
the empty string — a string different from the current DeviceState — does
not update the DeviceState: the handler requires the field to be truthy
and the empty string is falsy, so the frame is a complete no-op. -/
theorem onmessage_empty_command_counterexample :
    jsonParse "\x7b\"command\":\"\"\x7d" = some (Json.obj [("command", Json.str "")])
    ∧ socketOnmessage "\x7b\"command\":\"\"\x7d" initialState = initialState
    ∧ initialState.status = Json.str "OFF"
    ∧ ("OFF" : String) ≠ "" :=
  ⟨rfl, rfl, rfl, by decide⟩

/-- C9 amended: an inbound structured frame carrying a command field whose
value is a NONEMPTY string different from the current DeviceState updates
the DeviceState to it (the empty string, being falsy, is dropped); and
every raw frame failing the bracket test is treated exactly as the
envelope whose command value is the whole raw text. -/
theorem onmessage_command_spec (raw : String) (st : AppState) :
    (∀ data s, jsStartsWith raw "\x7b" = true → jsEndsWith raw "\x7d" = true →
        jsonParse raw = some data →
        jsonGetField data "command" = some (Json.str s) → s ≠ "" →
        jsStrictEq st.status (Json.str s) = false →
        (socketOnmessage raw st).status = Json.str s)
  ∧ ((jsStartsWith raw "\x7b" && jsEndsWith raw "\x7d") = false →
        socketOnmessage raw st
          = applyCommandField (Json.obj [("command", Json.str raw)]) st) := by
  constructor
  · intro data s hpre hsuf hparse hget hne hdiff
    have hm : socketOnmessage raw st = applyCommandField data st := by
      unfold socketOnmessage
      rw [hpre, hsuf, hparse]
      rfl
    have ht : jsTruthy (Json.str s) = true := by simp [jsTruthy, hne]
    rw [hm, applyCommandField_change st hget ht hdiff]
  · intro hb
    unfold socketOnmessage
    rw [hb]
    rfl

/-- Witness for C9: the structured frame announcing ON flips the initial
OFF state to ON, and the unstructured frame hello is handled exactly as
the envelope carrying hello. -/
theorem onmessage_command_spec_witness :
    (socketOnmessage "\x7b\"command\":\"ON\"\x7d" initialState).status = Json.str "ON"
    ∧ socketOnmessage "hello" initialState
        = applyCommandField (Json.obj [("command", Json.str "hello")]) initialState :=
  ⟨(onmessage_command_spec "\x7b\"command\":\"ON\"\x7d" initialState).1
      (Json.obj [("command", Json.str "ON")]) "ON" rfl rfl rfl rfl (by decide) rfl,
   (onmessage_command_spec "hello" initialState).2 rfl⟩

/-- C10: the dedup slot is initialized to the empty string, so the very
first notify call whose message is the empty string is suppressed — no
display happens and the slot is unchanged — although nothing has ever been
displayed. -/
theorem initial_empty_toast_suppressed (sev : Severity) :
    initialState.lastToast = ""
    ∧ (showToast "" sev initialState).toasts = initialState.toasts
    ∧ (showToast "" sev initialState).lastToast = initialState.lastToast :=
  ⟨rfl, rfl, rfl⟩

end HomeAuto
